import Mathlib

/-!
Verification of the asynchronous media-generation lifecycle
(client-side polling controller plus the two server proxy routes).

The embedding follows the TypeScript sources:
* the client page component (`Home`): its React state hooks, the
  `handleSubmit` function, the polling `useEffect` and the `poll`
  closure inside it;
* `app/api/generate-video/route.ts` (`POST`);
* `app/api/operations/[operationId]/route.ts` (`GET`).

External I/O (fetch results, provider replies) are parameters of the
transition functions; timer and fetch activity is instrumented with
counters (`queries` = status queries issued so far, `inflight` =
status queries issued but not yet resolved) so that temporal claims
about the polling loop can be stated over event traces.
-/

namespace VeoLifecycle

/-- JSON values as produced by `response.json()` / `JSON.parse`.
Numbers are modelled as integers (the payloads in play carry no
fractional numbers). -/
inductive Json where
  | null : Json
  | bool (b : Bool) : Json
  | num (n : Int) : Json
  | str (s : String) : Json
  | arr (elems : List Json) : Json
  | obj (fields : List (String × Json)) : Json

/-- JavaScript truthiness of a JSON value (used by `if (status.done)`). -/
def jsTruthy : Json → Bool
  | .null => false
  | .bool b => b
  | .num n => n != 0
  | .str s => s != ""
  | .arr _ => true
  | .obj _ => true

/-- Property access `j.done` in JavaScript: on an object, the first
binding of the key (later duplicates are shadowed in JSON.parse, we keep
first-match lookup of the final object); on `null` it throws a
TypeError; on any other value it yields `undefined` (here `none`). -/
def jsProp (j : Json) (key : String) : Except String (Option Json) :=
  match j with
  | .null => .error ("Cannot read properties of null (reading " ++ key ++ ")")
  | .obj fields => .ok (fields.lookup key)
  | _ => .ok none

/-- Evaluation of `status.done` as the poll handler uses it:
either a thrown TypeError or the truthiness of the field
(`undefined` being falsy). -/
def statusDone (status : Json) : Except String Bool :=
  match jsProp status "done" with
  | .error e => .error e
  | .ok none => .ok false
  | .ok (some v) => .ok (jsTruthy v)

/-- One reference-image slot of the form (`ReferenceImageInput`).
The `file` field (a browser `File` handle) is not observable by the
lifecycle logic and is omitted. -/
structure ReferenceImageInput where
  id : Nat
  name : String
  dataUrl : Option String
  error : Option String
deriving DecidableEq, Repr

/-- Body of the submit request (`{ prompt, referenceImages }`), with
images already projected to `{ name, dataUrl }` as `handleSubmit` does. -/
structure ReferenceImagePayload where
  name : String
  dataUrl : String
deriving DecidableEq, Repr

structure SubmitBody where
  prompt : String
  referenceImages : List ReferenceImagePayload
deriving DecidableEq, Repr

/-- The discriminated union `GenerateVideoResponse` returned by the
proxy submit endpoint on HTTP 200. -/
inductive GenerateVideoResponse where
  | stub (message : String)
  | success (operationId : String) (raw : Json)

/-- The client component's state: the React `useState` hooks of `Home`
plus the module-scoped `pollTimerRef`, and two instrumentation counters
for the polling loop (`queries`: status fetches issued so far,
`inflight`: status fetches issued but not yet resolved). -/
structure ControllerState where
  submitting : Bool
  errorMessage : Option String
  stubMessage : Option String
  operationId : Option String
  operationStatus : Option Json
  polling : Bool
  pollTimer : Option Nat
  queries : Nat
  inflight : Nat

/-- Initial hook values of `Home`. -/
def initialState : ControllerState where
  submitting := false
  errorMessage := none
  stubMessage := none
  operationId := none
  operationStatus := none
  polling := false
  pollTimer := none
  queries := 0
  inflight := 0

/-- The polling `useEffect` body, run whenever `operationId` changes:
with no operationId it clears the interval; with one it sets the
polling flag, invokes `poll()` immediately (one query issued, now in
flight) and installs the interval timer. -/
def applyEffect (s : ControllerState) : ControllerState :=
  match s.operationId with
  | none => { s with pollTimer := none }
  | some _ =>
      { s with
        polling := true
        queries := s.queries + 1
        inflight := s.inflight + 1
        pollTimer := some (s.queries + 1) }

/-- Events of the polling loop after the effect has run:
an interval tick (which invokes `poll()` again), or the resolution of
one in-flight status fetch — either `response.ok` with a JSON payload,
or a failure (rejected fetch, or the `Polling failed with N` error
thrown on a non-ok response, both landing in the same `catch`). -/
inductive PollEvent where
  | tick
  | pollOk (status : Json)
  | pollErr (msg : String)

/-- One event of the polling loop. `none` marks an event that cannot
occur in the given state (a tick with no installed interval, or a
resolution with nothing in flight).

* `tick`: `setInterval` invokes `poll` unconditionally — issuing a new
  status fetch even if a previous one is still unresolved.
* `pollOk status`: the handler stores the payload
  (`setOperationStatus(status)`), then tests `status.done` for
  truthiness; when truthy it clears the interval and the polling flag;
  a thrown TypeError (null payload) falls into the `catch` branch.
* `pollErr msg`: the `catch` branch — clears the polling flag, stores
  the error message, clears the interval. It does not touch
  `operationId`. -/
def step (s : ControllerState) (e : PollEvent) : Option ControllerState :=
  match e with
  | .tick =>
      match s.pollTimer with
      | none => none
      | some _ => some { s with queries := s.queries + 1, inflight := s.inflight + 1 }
  | .pollOk status =>
      if s.inflight = 0 then none
      else
        let s1 := { s with inflight := s.inflight - 1, operationStatus := some status }
        match statusDone status with
        | .error msg =>
            some { s1 with polling := false, errorMessage := some msg, pollTimer := none }
        | .ok true => some { s1 with pollTimer := none, polling := false }
        | .ok false => some s1
  | .pollErr msg =>
      if s.inflight = 0 then none
      else
        some { s with
          inflight := s.inflight - 1
          polling := false
          errorMessage := some msg
          pollTimer := none }

/-- Run a list of polling-loop events in order. -/
def run (s : ControllerState) (es : List PollEvent) : Option ControllerState :=
  match es with
  | [] => some s
  | e :: rest =>
      match step s e with
      | none => none
      | some s1 => run s1 rest

/-- A trace is tick-quiescent when every `tick` occurs at a moment with
no status query in flight, i.e. each query resolves before the next
interval tick fires. -/
def quiescentTicks (s : ControllerState) : List PollEvent → Bool
  | [] => true
  | e :: rest =>
      (match e with
       | .tick => s.inflight = 0
       | _ => true) &&
      (match step s e with
       | none => true
       | some s1 => quiescentTicks s1 rest)

/-- JavaScript `String.prototype.trim`: strip leading and trailing
whitespace (modelled over the common whitespace characters). -/
def jsTrim (s : String) : String :=
  String.mk (((s.data.dropWhile Char.isWhitespace).reverse.dropWhile
    Char.isWhitespace).reverse)

/-- Start of `handleSubmit` (before any `await`): set the submitting
flag and clear error, stub message, operationId and status. Clearing
`operationId` makes the polling effect clear any installed interval. -/
def submitReset (s : ControllerState) : ControllerState :=
  applyEffect
    { s with
      submitting := true
      errorMessage := none
      stubMessage := none
      operationId := none
      operationStatus := none }

/-- Validation and request construction in `handleSubmit`: an empty
trimmed prompt throws; images without a data URL are filtered out and
the rest projected to `{ name, dataUrl }`; an empty resulting list
throws. Only on success is the fetch body built (a network call made). -/
def buildSubmit (prompt : String) (images : List ReferenceImageInput) :
    Except String SubmitBody :=
  if jsTrim prompt = "" then
    .error "Prompt is required."
  else
    let referenceImages :=
      (images.filter (fun image => image.dataUrl.isSome)).map
        (fun image => { name := image.name, dataUrl := image.dataUrl.getD "" })
    if referenceImages = [] then
      .error "At least one reference image is required."
    else
      .ok { prompt := prompt, referenceImages := referenceImages }

/-- The submit fetch body, when a network call is made at all. -/
def submitRequest (prompt : String) (images : List ReferenceImageInput) :
    Option SubmitBody :=
  (buildSubmit prompt images).toOption

/-- Outcome of the submit fetch, as seen by `handleSubmit`:
a transport failure or non-ok response (both end up as a thrown error
with a message), or a parsed 200 response. -/
inductive SubmitReply where
  | failure (msg : String)
  | response (r : GenerateVideoResponse)

/-- Tail of `handleSubmit` after the fetch resolved: a thrown error is
caught and stored; a stub response stores the message; a success
response stores the operationId and raw status, which re-runs the
polling effect. `finally` clears the submitting flag. -/
def handleSubmitFinish (s : ControllerState) (reply : SubmitReply) : ControllerState :=
  match reply with
  | .failure msg => { s with errorMessage := some msg, submitting := false }
  | .response (.stub m) => { s with stubMessage := some m, submitting := false }
  | .response (.success op raw) =>
      applyEffect
        { s with
          operationId := some op
          operationStatus := some raw
          submitting := false
          stubMessage := none }

/-- The whole `handleSubmit`, parameterised by the network's reply
(which is consulted only when validation passed and a request was
actually sent). -/
def submit (s : ControllerState) (prompt : String)
    (images : List ReferenceImageInput) (net : SubmitReply) : ControllerState :=
  let s0 := submitReset s
  match buildSubmit prompt images with
  | .error msg => { s0 with errorMessage := some msg, submitting := false }
  | .ok _ => handleSubmitFinish s0 net

/-- `cancel`: tearing down the operation — reset `operationId` to null,
upon which the polling effect clears the interval (the path taken when
a new submission begins or the component unmounts). -/
def cancel (s : ControllerState) : ControllerState :=
  applyEffect { s with operationId := none }

/-- The spec's LifecycleState phase, read off the component's state:
an error message means Failed; the submitting flag means Submitting;
the polling flag means Polling; a stub message or a done last status
means Completed; otherwise Idle. -/
inductive Phase where
  | idle
  | submitting
  | polling
  | completed
  | failed
deriving DecidableEq, Repr

/-- Truthiness of the stored last status's `done` field. -/
def lastStatusDone (s : ControllerState) : Bool :=
  match s.operationStatus with
  | none => false
  | some st =>
      match statusDone st with
      | .ok b => b
      | .error _ => false

def phase (s : ControllerState) : Phase :=
  if s.errorMessage.isSome then .failed
  else if s.submitting then .submitting
  else if s.polling then .polling
  else if s.stubMessage.isSome || lastStatusDone s then .completed
  else .idle

/-! ### The generation proxy routes -/

/-- JSON body of the proxy submit endpoint (`RequestPayload`), both
fields optional as in the TypeScript type. -/
structure RequestPayload where
  prompt : Option String
  referenceImages : Option (List ReferenceImagePayload)
deriving DecidableEq, Repr

/-- Outcome of the submit route handler up to the provider boundary:
an input-validation rejection (HTTP status plus `{ error }` body), or
the call into `generateVideoWithGoogle` with the forwarded arguments. -/
inductive PostOutcome where
  | clientError (status : Nat) (error : String)
  | providerCall (prompt : String) (referenceImages : List ReferenceImagePayload)
deriving DecidableEq, Repr

/-- `POST /api/generate-video`: trims the prompt (missing prompt treated
as empty), rejects an empty prompt with 400; truncates the image list
to its first 4 entries (missing list treated as empty), rejects an
empty truncated list with 400; otherwise calls the provider. -/
def POST (body : RequestPayload) : PostOutcome :=
  let prompt := jsTrim (body.prompt.getD "")
  if prompt = "" then
    .clientError 400 "Prompt is required."
  else
    let referenceImages := (body.referenceImages.getD []).take 4
    if referenceImages = [] then
      .clientError 400 "At least one reference image is required."
    else
      .providerCall prompt referenceImages

/-- Hexadecimal digit value, as `decodeURIComponent` accepts it. -/
def hexVal (c : Char) : Option Nat :=
  if '0' ≤ c ∧ c ≤ '9' then some (c.toNat - '0'.toNat)
  else if 'a' ≤ c ∧ c ≤ 'f' then some (c.toNat - 'a'.toNat + 10)
  else if 'A' ≤ c ∧ c ≤ 'F' then some (c.toNat - 'A'.toNat + 10)
  else none

/-- Percent-decoding at the octet level (the behaviour of
`decodeURIComponent` on the ASCII range; a malformed escape yields
`none`, where the builtin throws `URIError`). -/
def percentDecode : List Char → Option (List Char)
  | [] => some []
  | '%' :: h1 :: h2 :: rest =>
      match hexVal h1, hexVal h2 with
      | some a, some b =>
          match percentDecode rest with
          | some cs => some (Char.ofNat (16 * a + b) :: cs)
          | none => none
      | _, _ => none
  | '%' :: _ => none
  | c :: rest =>
      match percentDecode rest with
      | some cs => some (c :: cs)
      | none => none

def percentDecodeStr (s : String) : Option String :=
  match percentDecode s.data with
  | some cs => some (String.mk cs)
  | none => none

/-- Outcome of the status route handler up to the provider boundary:
a validation rejection, the 500 produced when `decodeURIComponent`
throws (caught by the route's catch), or the call into
`getOperationStatus` with the decoded handle. -/
inductive GetOutcome where
  | clientError (status : Nat) (error : String)
  | serverError (status : Nat)
  | providerLookup (decodedId : String)
deriving DecidableEq, Repr

/-- `GET /api/operations/[operationId]`: an empty handle is rejected
with `400 {error: "operationId is required"}` before any provider
contact; otherwise the handle is URL-decoded and passed to the
provider's status lookup. -/
def GET (operationId : String) : GetOutcome :=
  if operationId = "" then
    .clientError 400 "operationId is required"
  else
    match percentDecodeStr operationId with
    | some decodedId => .providerLookup decodedId
    | none => .serverError 500

/-! ### Sample inputs used by witnesses and counterexamples -/

/-- A filled reference-image slot. -/
def sampleImage : ReferenceImageInput :=
  { id := 0, name := "ref-1", dataUrl := some "data:image/png;base64,AAA", error := none }

/-- Initial raw status of a deferred operation. -/
def doneFalseRaw : Json := Json.obj [("done", Json.bool false)]

/-- A status payload with boolean `done: true`. -/
def doneTrueStatus : Json := Json.obj [("done", Json.bool true)]

/-- State after a valid submission answered with a deferred handle:
one status query already in flight, interval installed. -/
def deferredSubmitState : ControllerState :=
  submit initialState "sunset" [sampleImage]
    (SubmitReply.response (GenerateVideoResponse.success "op-1" doneFalseRaw))

/-! ### Shape lemmas for the submit paths -/

/-- A validation failure of `handleSubmit` only resets state and stores
the error; the fetch argument is never consulted. -/
theorem submit_validation_error_eq (s : ControllerState) (prompt : String)
    (images : List ReferenceImageInput) (net : SubmitReply) (msg : String)
    (hb : buildSubmit prompt images = Except.error msg) :
    submit s prompt images net =
      { submitting := false, errorMessage := some msg, stubMessage := none,
        operationId := none, operationStatus := none, polling := s.polling,
        pollTimer := none, queries := s.queries, inflight := s.inflight } := by
  simp [submit, hb, submitReset, applyEffect]

/-- A stub reply leaves no operationId and no timer behind. -/
theorem submit_stub_eq (s : ControllerState) (prompt : String)
    (images : List ReferenceImageInput) (m : String) (b : SubmitBody)
    (hb : buildSubmit prompt images = Except.ok b) :
    submit s prompt images (SubmitReply.response (GenerateVideoResponse.stub m)) =
      { submitting := false, errorMessage := none, stubMessage := some m,
        operationId := none, operationStatus := none, polling := s.polling,
        pollTimer := none, queries := s.queries, inflight := s.inflight } := by
  simp [submit, hb, submitReset, handleSubmitFinish, applyEffect]

/-- A deferred reply stores the handle and raw status and starts the
polling loop: one query issued and in flight, interval installed. -/
theorem submit_success_eq (s : ControllerState) (prompt : String)
    (images : List ReferenceImageInput) (op : String) (raw : Json) (b : SubmitBody)
    (hb : buildSubmit prompt images = Except.ok b) :
    submit s prompt images
        (SubmitReply.response (GenerateVideoResponse.success op raw)) =
      { submitting := false, errorMessage := none, stubMessage := none,
        operationId := some op, operationStatus := some raw, polling := true,
        pollTimer := some (s.queries + 1), queries := s.queries + 1,
        inflight := s.inflight + 1 } := by
  simp [submit, hb, submitReset, handleSubmitFinish, applyEffect]

/-! ### Step lemmas for the polling loop -/

/-- A resolved status query with truthy `done` clears interval and
polling flag and stores the payload. -/
theorem step_pollOk_done_eq (s : ControllerState) (status : Json)
    (hin : s.inflight ≠ 0) (hd : statusDone status = Except.ok true) :
    step s (PollEvent.pollOk status) =
      some { s with inflight := s.inflight - 1, operationStatus := some status,
                    pollTimer := none, polling := false } := by
  simp [step, hin, hd]

/-- A resolved status query with missing or falsy `done` only stores the
payload; interval and polling flag are untouched. -/
theorem step_pollOk_notDone_eq (s : ControllerState) (status : Json)
    (hin : s.inflight ≠ 0) (hd : statusDone status = Except.ok false) :
    step s (PollEvent.pollOk status) =
      some { s with inflight := s.inflight - 1, operationStatus := some status } := by
  simp [step, hin, hd]

/-- A failed status query stores the error, clears interval and polling
flag — and touches nothing else (in particular not `operationId`). -/
theorem step_pollErr_eq (s : ControllerState) (msg : String)
    (hin : s.inflight ≠ 0) :
    step s (PollEvent.pollErr msg) =
      some { s with inflight := s.inflight - 1, polling := false,
                    errorMessage := some msg, pollTimer := none } := by
  simp [step, hin]

/-- Once the interval is cleared, no polling-loop event reinstalls it or
issues a new status query. -/
theorem step_timer_none (s s1 : ControllerState) (e : PollEvent)
    (ht : s.pollTimer = none) (h : step s e = some s1) :
    s1.pollTimer = none ∧ s1.queries = s.queries := by
  cases e with
  | tick => simp [step, ht] at h
  | pollOk status =>
      by_cases hin : s.inflight = 0
      · simp [step, hin] at h
      · cases hd : statusDone status with
        | error m =>
            simp [step, hin, hd] at h
            subst h
            exact ⟨rfl, rfl⟩
        | ok b =>
            cases b with
            | true =>
                simp [step, hin, hd] at h
                subst h
                exact ⟨rfl, rfl⟩
            | false =>
                simp [step, hin, hd] at h
                subst h
                exact ⟨ht, rfl⟩
  | pollErr msg =>
      by_cases hin : s.inflight = 0
      · simp [step, hin] at h
      · simp [step, hin] at h
        subst h
        exact ⟨rfl, rfl⟩

/-- Along any trace of polling-loop events starting with a cleared
interval, the number of issued status queries never grows. -/
theorem run_timer_none (es : List PollEvent) :
    ∀ s s2 : ControllerState, s.pollTimer = none → run s es = some s2 →
      s2.pollTimer = none ∧ s2.queries = s.queries := by
  induction es with
  | nil =>
      intro s s2 ht h
      simp [run] at h
      subst h
      exact ⟨ht, rfl⟩
  | cons e rest ih =>
      intro s s2 ht h
      cases hst : step s e with
      | none => simp [run, hst] at h
      | some s1 =>
          simp only [run, hst] at h
          obtain ⟨h1, h2⟩ := step_timer_none s s1 e ht hst
          obtain ⟨h3, h4⟩ := ih s1 s2 h1 h
          exact ⟨h3, h4.trans h2⟩

/-- One step of the quiescent-tick argument: if at most one query is in
flight and ticks only fire while none is, a step keeps at most one in
flight. -/
theorem step_quiescent_inflight (s s1 : ControllerState) (e : PollEvent)
    (hin : s.inflight ≤ 1) (hq : e = PollEvent.tick → s.inflight = 0)
    (h : step s e = some s1) : s1.inflight ≤ 1 := by
  cases e with
  | tick =>
      have h0 : s.inflight = 0 := hq rfl
      cases ht : s.pollTimer with
      | none => simp [step, ht] at h
      | some t =>
          simp [step, ht] at h
          subst h
          simp [h0]
  | pollOk status =>
      by_cases hin0 : s.inflight = 0
      · simp [step, hin0] at h
      · cases hd : statusDone status with
        | error m =>
            simp [step, hin0, hd] at h
            subst h
            simp only []
            omega
        | ok b =>
            cases b with
            | true =>
                simp [step, hin0, hd] at h
                subst h
                simp only []
                omega
            | false =>
                simp [step, hin0, hd] at h
                subst h
                simp only []
                omega
  | pollErr msg =>
      by_cases hin0 : s.inflight = 0
      · simp [step, hin0] at h
      · simp [step, hin0] at h
        subst h
        simp only []
        omega

/-- Quiescent-tick traces keep at most one status query in flight. -/
theorem run_quiescent_inflight (es : List PollEvent) :
    ∀ s s2 : ControllerState, s.inflight ≤ 1 → quiescentTicks s es = true →
      run s es = some s2 → s2.inflight ≤ 1 := by
  induction es with
  | nil =>
      intro s s2 hin _ h
      simp [run] at h
      subst h
      exact hin
  | cons e rest ih =>
      intro s s2 hin hq h
      cases hst : step s e with
      | none => simp [run, hst] at h
      | some s1 =>
          simp only [run, hst] at h
          simp only [quiescentTicks, hst, Bool.and_eq_true] at hq
          obtain ⟨hq1, hq2⟩ := hq
          refine ih s1 s2 ?_ hq2 h
          refine step_quiescent_inflight s s1 e hin ?_ hst
          intro he
          subst he
          simpa using hq1

/-! ### Claim theorems -/

/-- C3: for every GenerationRequest whose prompt is empty or
whitespace-only after trimming, `handleSubmit` moves the controller to
Failed with a descriptive error and builds no fetch request, and the
proxy submit route answers 400 `Prompt is required.` without reaching
the provider call. -/
theorem empty_prompt_fails_without_network
    (s : ControllerState) (prompt : String) (images : List ReferenceImageInput)
    (net : SubmitReply) (body : RequestPayload)
    (hp : jsTrim prompt = "") (hbody : jsTrim (body.prompt.getD "") = "") :
    submitRequest prompt images = none ∧
    (submit s prompt images net).errorMessage = some "Prompt is required." ∧
    phase (submit s prompt images net) = Phase.failed ∧
    POST body = PostOutcome.clientError 400 "Prompt is required." := by
  have hb : buildSubmit prompt images = Except.error "Prompt is required." := by
    simp [buildSubmit, hp]
  refine ⟨?_, ?_, ?_, ?_⟩
  · simp [submitRequest, hb, Except.toOption]
  · rw [submit_validation_error_eq s prompt images net _ hb]
  · rw [submit_validation_error_eq s prompt images net _ hb]
    simp [phase]
  · simp [POST, hbody]

/-- Witness for C3: whitespace-only prompt on both the client and the
proxy. -/
theorem empty_prompt_fails_without_network_witness :
    jsTrim "   " = "" ∧
    jsTrim ((some "  " : Option String).getD "") = "" ∧
    (submitRequest "   " [sampleImage] = none ∧
     (submit initialState "   " [sampleImage]
        (SubmitReply.response (GenerateVideoResponse.stub "m"))).errorMessage =
       some "Prompt is required." ∧
     phase (submit initialState "   " [sampleImage]
        (SubmitReply.response (GenerateVideoResponse.stub "m"))) = Phase.failed ∧
     POST { prompt := some "  ", referenceImages := some [] } =
       PostOutcome.clientError 400 "Prompt is required.") :=
  ⟨rfl, rfl,
    empty_prompt_fails_without_network initialState "   " [sampleImage]
      (SubmitReply.response (GenerateVideoResponse.stub "m"))
      { prompt := some "  ", referenceImages := some [] } rfl rfl⟩

/-- C4: for every GenerationRequest with zero reference images (no slot
holding a data URL), `handleSubmit` moves the controller to Failed
without building a fetch request, and the proxy submit route answers
400 `At least one reference image is required.` without reaching the
provider call. -/
theorem no_images_fails_without_network
    (s : ControllerState) (prompt : String) (images : List ReferenceImageInput)
    (net : SubmitReply) (p2 : Option String)
    (imgs2 : Option (List ReferenceImagePayload))
    (hp : jsTrim prompt ≠ "")
    (hi : images.filter (fun image => image.dataUrl.isSome) = [])
    (hp2 : jsTrim (p2.getD "") ≠ "") (hi2 : imgs2.getD [] = []) :
    submitRequest prompt images = none ∧
    (submit s prompt images net).errorMessage =
      some "At least one reference image is required." ∧
    phase (submit s prompt images net) = Phase.failed ∧
    POST { prompt := p2, referenceImages := imgs2 } =
      PostOutcome.clientError 400 "At least one reference image is required." := by
  have hb : buildSubmit prompt images =
      Except.error "At least one reference image is required." := by
    simp [buildSubmit, hp, hi]
  refine ⟨?_, ?_, ?_, ?_⟩
  · simp [submitRequest, hb, Except.toOption]
  · rw [submit_validation_error_eq s prompt images net _ hb]
  · rw [submit_validation_error_eq s prompt images net _ hb]
    simp [phase]
  · simp [POST, hp2, hi2]

/-- Witness for C4: a nonempty prompt with both image slots empty. -/
theorem no_images_fails_without_network_witness :
    jsTrim "sunset" ≠ "" ∧
    [{ id := 0, name := "reference-image-1", dataUrl := none, error := none },
     { id := 1, name := "reference-image-2", dataUrl := none, error := none
       }].filter (fun image => ReferenceImageInput.dataUrl image |>.isSome) = [] ∧
    jsTrim ((some "sunset" : Option String).getD "") ≠ "" ∧
    ((some [] : Option (List ReferenceImagePayload)).getD []) = [] ∧
    (submitRequest "sunset"
       [{ id := 0, name := "reference-image-1", dataUrl := none, error := none },
        { id := 1, name := "reference-image-2", dataUrl := none, error := none }] =
         none ∧
     (submit initialState "sunset"
        [{ id := 0, name := "reference-image-1", dataUrl := none, error := none },
         { id := 1, name := "reference-image-2", dataUrl := none, error := none }]
        (SubmitReply.response (GenerateVideoResponse.stub "m"))).errorMessage =
       some "At least one reference image is required." ∧
     phase (submit initialState "sunset"
        [{ id := 0, name := "reference-image-1", dataUrl := none, error := none },
         { id := 1, name := "reference-image-2", dataUrl := none, error := none }]
        (SubmitReply.response (GenerateVideoResponse.stub "m"))) = Phase.failed ∧
     POST { prompt := some "sunset", referenceImages := some [] } =
       PostOutcome.clientError 400 "At least one reference image is required.") :=
  ⟨by decide, rfl, by decide, rfl,
    no_images_fails_without_network initialState "sunset"
      [{ id := 0, name := "reference-image-1", dataUrl := none, error := none },
       { id := 1, name := "reference-image-2", dataUrl := none, error := none }]
      (SubmitReply.response (GenerateVideoResponse.stub "m"))
      (some "sunset") (some []) (by decide) rfl (by decide) rfl⟩

/-- C7: the status route rejects an empty operation handle with
`400 {error: "operationId is required"}` before any provider contact,
URL-decodes every non-empty handle before handing it to the provider
status lookup, and whenever the provider is reached the argument is
exactly the decode of the handle. -/
theorem status_route_validates_and_decodes
    (opId decoded : String) (hne : opId ≠ "")
    (hdec : percentDecodeStr opId = some decoded) :
    GET "" = GetOutcome.clientError 400 "operationId is required" ∧
    GET opId = GetOutcome.providerLookup decoded ∧
    (∀ id d, GET id = GetOutcome.providerLookup d → percentDecodeStr id = some d) := by
  refine ⟨rfl, ?_, ?_⟩
  · simp [GET, hne, hdec]
  · intro id d h
    by_cases hid : id = ""
    · subst hid
      simp [GET] at h
    · cases hd : percentDecodeStr id with
      | none => simp [GET, hid, hd] at h
      | some d2 =>
          have hGETid : GET id = GetOutcome.providerLookup d2 := by
            simp [GET, hid, hd]
          rw [hGETid] at h
          injection h with h2
          exact congrArg some h2

/-- Witness for C7: a handle with a percent-encoded slash. -/
theorem status_route_validates_and_decodes_witness :
    ("op%2F123" : String) ≠ "" ∧
    percentDecodeStr "op%2F123" = some "op/123" ∧
    (GET "" = GetOutcome.clientError 400 "operationId is required" ∧
     GET "op%2F123" = GetOutcome.providerLookup "op/123" ∧
     (∀ id d, GET id = GetOutcome.providerLookup d →
        percentDecodeStr id = some d)) :=
  ⟨by decide, rfl,
    status_route_validates_and_decodes "op%2F123" "op/123" (by decide) rfl⟩

/-- C9: `cancel` is idempotent — from any controller state, cancelling
twice yields exactly the state of cancelling once, timer handle
included. -/
theorem cancel_idempotent (s : ControllerState) : cancel (cancel s) = cancel s := rfl

/-- C10: a submit body with more than 4 reference images is not
rejected; the proxy truncates the list to its first 4 entries before
the provider call, and the request behaves exactly like one carrying
only that 4-element front segment. -/
theorem post_truncates_reference_images_to_four
    (p : String) (refs : List ReferenceImagePayload)
    (hp : jsTrim p ≠ "") (hlen : 4 < refs.length) :
    POST { prompt := some p, referenceImages := some refs } =
      PostOutcome.providerCall (jsTrim p) (refs.take 4) ∧
    POST { prompt := some p, referenceImages := some refs } =
      POST { prompt := some p, referenceImages := some (refs.take 4) } := by
  have hne : refs.take 4 ≠ [] := by
    have h4 : (refs.take 4).length = 4 := by
      rw [List.length_take]
      omega
    intro hnil
    rw [hnil] at h4
    simp at h4
  constructor
  · simp [POST, hp, hne]
  · simp [POST, hp, hne, List.take_take]

/-- Witness for C10: five reference images; the fifth is dropped. -/
theorem post_truncates_reference_images_to_four_witness :
    jsTrim "sunset" ≠ "" ∧
    4 < ([{ name := "a", dataUrl := "d1" }, { name := "b", dataUrl := "d2" },
          { name := "c", dataUrl := "d3" }, { name := "d", dataUrl := "d4" },
          { name := "e", dataUrl := "d5" }] : List ReferenceImagePayload).length ∧
    (POST { prompt := some "sunset",
            referenceImages := some [{ name := "a", dataUrl := "d1" },
              { name := "b", dataUrl := "d2" }, { name := "c", dataUrl := "d3" },
              { name := "d", dataUrl := "d4" }, { name := "e", dataUrl := "d5" }] } =
       PostOutcome.providerCall (jsTrim "sunset")
         (([{ name := "a", dataUrl := "d1" }, { name := "b", dataUrl := "d2" },
            { name := "c", dataUrl := "d3" }, { name := "d", dataUrl := "d4" },
            { name := "e", dataUrl := "d5" }] :
              List ReferenceImagePayload).take 4) ∧
     POST { prompt := some "sunset",
            referenceImages := some [{ name := "a", dataUrl := "d1" },
              { name := "b", dataUrl := "d2" }, { name := "c", dataUrl := "d3" },
              { name := "d", dataUrl := "d4" }, { name := "e", dataUrl := "d5" }] } =
       POST { prompt := some "sunset",
              referenceImages := some (([{ name := "a", dataUrl := "d1" },
                { name := "b", dataUrl := "d2" }, { name := "c", dataUrl := "d3" },
                { name := "d", dataUrl := "d4" }, { name := "e", dataUrl := "d5" }] :
                  List ReferenceImagePayload).take 4) }) :=
  ⟨by decide, by decide,
    post_truncates_reference_images_to_four "sunset"
      [{ name := "a", dataUrl := "d1" }, { name := "b", dataUrl := "d2" },
       { name := "c", dataUrl := "d3" }, { name := "d", dataUrl := "d4" },
       { name := "e", dataUrl := "d5" }] (by decide) (by decide)⟩

/-- C1: a submission answered with the Deferred variant followed by a
status reply whose `done` field is the boolean true leaves the
controller Completed — polling flag cleared, last status stored — with
the interval timer cleared, and the polling loop never issues another
status query afterwards. -/
theorem deferred_then_done_completes_and_stops
    (s : ControllerState) (prompt : String) (images : List ReferenceImageInput)
    (op : String) (raw status : Json) (b : SubmitBody) (s2 : ControllerState)
    (hb : buildSubmit prompt images = Except.ok b)
    (hdone : statusDone status = Except.ok true)
    (h2 : step (submit s prompt images
        (SubmitReply.response (GenerateVideoResponse.success op raw)))
        (PollEvent.pollOk status) = some s2) :
    s2.polling = false ∧ s2.pollTimer = none ∧ s2.operationStatus = some status ∧
    phase s2 = Phase.completed ∧
    (∀ es s3, run s2 es = some s3 → s3.queries = s2.queries) := by
  rw [submit_success_eq s prompt images op raw b hb] at h2
  rw [step_pollOk_done_eq _ _ (by simp) hdone] at h2
  injection h2 with h2
  subst h2
  refine ⟨rfl, rfl, rfl, ?_, ?_⟩
  · simp [phase, lastStatusDone, hdone]
  · intro es s3 hr
    exact (run_timer_none es _ s3 rfl hr).2

/-- State reached in the witness scenario for C1: deferred submission,
then a `done: true` status reply. -/
def deferredDoneState : ControllerState :=
  (step deferredSubmitState (PollEvent.pollOk doneTrueStatus)).getD initialState

/-- Witness for C1: operation `op-1`, first status `done: false`, then
a reply with boolean `done: true`. -/
theorem deferred_then_done_completes_and_stops_witness :
    buildSubmit "sunset" [sampleImage] =
      Except.ok { prompt := "sunset",
                  referenceImages :=
                    [{ name := "ref-1", dataUrl := "data:image/png;base64,AAA" }] } ∧
    statusDone doneTrueStatus = Except.ok true ∧
    step deferredSubmitState (PollEvent.pollOk doneTrueStatus) =
      some deferredDoneState ∧
    (deferredDoneState.polling = false ∧ deferredDoneState.pollTimer = none ∧
     deferredDoneState.operationStatus = some doneTrueStatus ∧
     phase deferredDoneState = Phase.completed ∧
     (∀ es s3, run deferredDoneState es = some s3 →
        s3.queries = deferredDoneState.queries)) :=
  ⟨rfl, rfl, rfl,
    deferred_then_done_completes_and_stops initialState "sunset" [sampleImage]
      "op-1" doneFalseRaw doneTrueStatus
      { prompt := "sunset",
        referenceImages := [{ name := "ref-1", dataUrl := "data:image/png;base64,AAA" }] }
      deferredDoneState rfl rfl rfl⟩

/-- C6 counterexample: a stub-replied submission begun while the
polling flag is still set — reachable, since a deferred submission
leaves the flag set and neither `handleSubmit` nor the effect's null
branch ever calls `setPolling(false)` — keeps the stale flag: the
controller presents as Polling, not a terminal Completed. -/
theorem stub_during_polling_not_completed_cex :
    deferredSubmitState.polling = true ∧
    (submit deferredSubmitState "sunset" [sampleImage]
      (SubmitReply.response (GenerateVideoResponse.stub "stub"))).stubMessage =
        some "stub" ∧
    phase (submit deferredSubmitState "sunset" [sampleImage]
      (SubmitReply.response (GenerateVideoResponse.stub "stub"))) =
        Phase.polling ∧
    Phase.polling ≠ Phase.completed :=
  ⟨rfl, rfl, rfl, by decide⟩

/-- C6 (amended): a submission answered with the stub variant stores
the message, keeps no operationId and no interval, carries the previous
polling flag over unchanged, and never issues a status query — now or
by any later polling-loop event; it ends in Completed provided the
polling flag was clear when the submission began (a stub reply after a
still-flagged submission keeps the stale flag and reads as Polling). -/
theorem stub_reply_completes_without_status_query
    (s s1 : ControllerState) (prompt : String)
    (images : List ReferenceImageInput) (m : String) (b : SubmitBody)
    (hb : buildSubmit prompt images = Except.ok b)
    (hs1 : s1 = submit s prompt images
        (SubmitReply.response (GenerateVideoResponse.stub m))) :
    s1.stubMessage = some m ∧ s1.operationId = none ∧ s1.pollTimer = none ∧
    s1.queries = s.queries ∧ s1.polling = s.polling ∧
    (∀ es s2, run s1 es = some s2 → s2.queries = s1.queries) ∧
    (s.polling = false → phase s1 = Phase.completed) := by
  rw [submit_stub_eq s prompt images m b hb] at hs1
  subst hs1
  refine ⟨rfl, rfl, rfl, rfl, rfl, ?_, ?_⟩
  · intro es s2 hr
    exact (run_timer_none es _ s2 rfl hr).2
  · intro hpoll
    simp [phase, hpoll]

/-- State after a stub-answered submission from the initial state. -/
def stubSubmitState : ControllerState :=
  submit initialState "sunset" [sampleImage]
    (SubmitReply.response (GenerateVideoResponse.stub
      "Video generation is stubbed because GOOGLE_GENAI_API_KEY is not set."))

/-- Witness for C6 (amended): a stub reply from a fresh controller,
where the polling flag is clear and the controller ends Completed. -/
theorem stub_reply_completes_without_status_query_witness :
    buildSubmit "sunset" [sampleImage] =
      Except.ok { prompt := "sunset",
                  referenceImages :=
                    [{ name := "ref-1", dataUrl := "data:image/png;base64,AAA" }] } ∧
    stubSubmitState = submit initialState "sunset" [sampleImage]
      (SubmitReply.response (GenerateVideoResponse.stub
        "Video generation is stubbed because GOOGLE_GENAI_API_KEY is not set.")) ∧
    (stubSubmitState.stubMessage =
       some "Video generation is stubbed because GOOGLE_GENAI_API_KEY is not set." ∧
     stubSubmitState.operationId = none ∧ stubSubmitState.pollTimer = none ∧
     stubSubmitState.queries = initialState.queries ∧
     stubSubmitState.polling = initialState.polling ∧
     (∀ es s2, run stubSubmitState es = some s2 →
        s2.queries = stubSubmitState.queries) ∧
     (initialState.polling = false → phase stubSubmitState = Phase.completed)) ∧
    phase stubSubmitState = Phase.completed := by
  have h := stub_reply_completes_without_status_query initialState stubSubmitState
    "sunset" [sampleImage]
    "Video generation is stubbed because GOOGLE_GENAI_API_KEY is not set."
    { prompt := "sunset",
      referenceImages := [{ name := "ref-1", dataUrl := "data:image/png;base64,AAA" }] }
    rfl rfl
  exact ⟨rfl, rfl, h, h.2.2.2.2.2.2 rfl⟩

/-- C2 counterexample: after a deferred submission for `op-1`, a failing
status query leaves the stored operationId in place — the handle is not
discarded as the claim states. -/
theorem poll_error_retains_operation_handle_cex :
    (step deferredSubmitState (PollEvent.pollErr "Polling failed with 500")).map
      ControllerState.operationId = some (some "op-1") ∧
    (some "op-1" : Option String) ≠ none :=
  ⟨rfl, by simp⟩

/-- C2 (amended): when a status query fails the controller stops the
timer, clears the polling flag and transitions to Failed with the
surfaced error; the stored operationId is retained rather than
discarded, and the polling loop never issues another status query. -/
theorem poll_error_stops_and_fails
    (s s2 : ControllerState) (msg : String)
    (h : step s (PollEvent.pollErr msg) = some s2) :
    s2.polling = false ∧ s2.pollTimer = none ∧ s2.errorMessage = some msg ∧
    phase s2 = Phase.failed ∧ s2.operationId = s.operationId ∧
    (∀ es s3, run s2 es = some s3 → s3.queries = s2.queries) := by
  by_cases hin : s.inflight = 0
  · simp [step, hin] at h
  · rw [step_pollErr_eq s msg hin] at h
    injection h with h
    subst h
    refine ⟨rfl, rfl, rfl, ?_, rfl, ?_⟩
    · simp [phase]
    · intro es s3 hr
      exact (run_timer_none es _ s3 rfl hr).2

/-- State after the failing poll of the C2 scenario. -/
def pollErrorState : ControllerState :=
  (step deferredSubmitState
    (PollEvent.pollErr "Polling failed with 500")).getD initialState

/-- Witness for C2 (amended): a 500 status reply during polling. -/
theorem poll_error_stops_and_fails_witness :
    step deferredSubmitState (PollEvent.pollErr "Polling failed with 500") =
      some pollErrorState ∧
    (pollErrorState.polling = false ∧ pollErrorState.pollTimer = none ∧
     pollErrorState.errorMessage = some "Polling failed with 500" ∧
     phase pollErrorState = Phase.failed ∧
     pollErrorState.operationId = deferredSubmitState.operationId ∧
     (∀ es s3, run pollErrorState es = some s3 →
        s3.queries = pollErrorState.queries)) :=
  ⟨rfl,
    poll_error_stops_and_fails deferredSubmitState pollErrorState
      "Polling failed with 500" rfl⟩

/-- C5 counterexample: right after a deferred submission one status
query is in flight; an interval tick before it resolves issues a second
one — two status queries outstanding at once. -/
theorem tick_during_unresolved_query_cex :
    deferredSubmitState.inflight = 1 ∧
    (step deferredSubmitState PollEvent.tick).map ControllerState.inflight =
      some 2 :=
  ⟨rfl, rfl⟩

/-- C5 (amended): the interval timer invokes the poll callback on every
tick whether or not the previous status query has resolved — a query
still unresolved when the interval elapses yields a second concurrent
query; at most one query is outstanding exactly along tick-quiescent
traces, those whose ticks all fire with no query in flight. -/
theorem quiescent_traces_at_most_one_outstanding
    (s s2 : ControllerState) (es : List PollEvent)
    (hin : s.inflight ≤ 1) (hq : quiescentTicks s es = true)
    (hrun : run s es = some s2) : s2.inflight ≤ 1 :=
  run_quiescent_inflight es s s2 hin hq hrun

/-- A polling trace in which every query resolves before the next tick. -/
def quiescentTrace : List PollEvent :=
  [PollEvent.pollOk doneFalseRaw, PollEvent.tick, PollEvent.pollOk doneTrueStatus]

/-- Witness for C5 (amended): a two-poll quiescent trace. -/
theorem quiescent_traces_at_most_one_outstanding_witness :
    deferredSubmitState.inflight ≤ 1 ∧
    quiescentTicks deferredSubmitState quiescentTrace = true ∧
    ((run deferredSubmitState quiescentTrace).getD initialState).inflight ≤ 1 :=
  ⟨by decide, rfl,
    quiescent_traces_at_most_one_outstanding deferredSubmitState
      ((run deferredSubmitState quiescentTrace).getD initialState)
      quiescentTrace (by decide) rfl rfl⟩

/-- A status payload whose `done` field holds a non-boolean value. -/
def nonBooleanDoneStatus : Json := Json.obj [("done", Json.str "PENDING")]

/-- C8 counterexample: a status payload whose `done` is the non-boolean
string "PENDING" is truthy, so the poll handler clears the interval and
the controller transitions to Completed — polling does not continue as
the claim states. -/
theorem non_boolean_done_completes_cex :
    (step deferredSubmitState (PollEvent.pollOk nonBooleanDoneStatus)).map
      (fun s => (s.polling, s.pollTimer, phase s)) =
      some (false, none, Phase.completed) :=
  rfl

/-- C8 (amended): a status payload whose `done` field is missing or
falsy is treated as not yet complete — the payload is stored and the
timer, polling flag and error state are untouched, without crashing;
but a payload whose `done` is truthy triggers the Completed transition
even when it is not a boolean, because the handler tests JavaScript
truthiness of `done` rather than requiring the boolean true. -/
theorem missing_or_falsy_done_continues_polling
    (s : ControllerState) (status : Json) (hin : s.inflight ≠ 0) :
    (statusDone status = Except.ok false →
      step s (PollEvent.pollOk status) =
        some { s with inflight := s.inflight - 1,
                      operationStatus := some status }) ∧
    (statusDone status = Except.ok true →
      step s (PollEvent.pollOk status) =
        some { s with inflight := s.inflight - 1,
                      operationStatus := some status,
                      pollTimer := none, polling := false }) :=
  ⟨fun hd => step_pollOk_notDone_eq s status hin hd,
   fun hd => step_pollOk_done_eq s status hin hd⟩

/-- Witness for C8 (amended): a payload with no `done` field at all is
stored and polling continues unchanged. -/
theorem missing_or_falsy_done_continues_polling_witness :
    step deferredSubmitState (PollEvent.pollOk (Json.obj [])) =
      some { deferredSubmitState with
             inflight := deferredSubmitState.inflight - 1,
             operationStatus := some (Json.obj []) } :=
  (missing_or_falsy_done_continues_polling deferredSubmitState (Json.obj [])
    (by decide)).1 rfl

end VeoLifecycle
